import Mathlib

/-!
Verification of the multi-agent blog generator's shared-state schema,
execution kernel, conditional gate, and search tools, shallowly embedded
from the Python source (src/state/schema.py, src/agents/base.py,
src/tools/search.py).

Python dictionaries are modelled as association lists over `String` keys
with dict-faithful update semantics (an existing binding is replaced in
place, a new binding is appended).  The kernel's wall-clock reads are
modelled by explicit duration parameters, and `datetime.now()` by an
explicit timestamp parameter.  Domain logic (`execute`) is a parameter of
type `AgentState → Except String AgentState`: `Except.error msg` models a
raised exception whose `str()` is `msg`.
-/

/-- Status of agent execution (schema.py, `AgentStatus`). -/
inductive AgentStatus where
  | pending
  | inProgress
  | completed
  | failed
deriving DecidableEq, Repr

/-- Quality assessment for research data (schema.py, `ResearchQuality`). -/
inductive ResearchQuality where
  | high
  | medium
  | low
  | unknown
deriving DecidableEq, Repr

/-- One error-log record as built by the kernel failure path
(base.py lines 104-109). -/
structure ErrorEntry where
  agent : String
  error : String
  timestamp : Nat
  execution_count : Nat
deriving DecidableEq, Repr

/-- Values stored in the shared state dictionary. -/
inductive Value where
  | vstr : String → Value
  | vnum : Rat → Value
  | vint : Int → Value
  | vbool : Bool → Value
  | vnone : Value
  | vstatus : AgentStatus → Value
  | vquality : ResearchQuality → Value
  | vtime : Nat → Value
  | vstrList : List String → Value
  | vsrcList : List (List (String × String)) → Value
  | vstatusMap : List (String × AgentStatus) → Value
  | vtimeMap : List (String × Rat) → Value
  | verrLog : List ErrorEntry → Value
deriving DecidableEq, Repr

/-- The shared state (schema.py, `AgentState`): a Python dict modelled as an
association list. -/
abbrev AgentState := List (String × Value)

/-- Python `d.get(k)` / `k in d`: look up the first binding of `k`. -/
def dget {V : Type} (d : List (String × V)) (k : String) : Option V :=
  match d with
  | [] => none
  | (k', v) :: rest => if k' = k then some v else dget rest k

/-- Python `d[k] = v`: replace an existing binding in place, otherwise
append a new one (CPython dicts preserve insertion order). -/
def dinsert {V : Type} (d : List (String × V)) (k : String) (v : V) :
    List (String × V) :=
  match d with
  | [] => [(k, v)]
  | (k', v') :: rest =>
    if k' = k then (k, v) :: rest else (k', v') :: dinsert rest k v

/-- Python `d.update(u)`: apply `u`'s bindings to `d` in order. -/
def dupdate {V : Type} (d u : List (String × V)) : List (String × V) :=
  u.foldl (fun acc kv => dinsert acc kv.1 kv.2) d

/-- The keys of a dict, in order. -/
def dkeys {V : Type} (d : List (String × V)) : List String :=
  d.map (fun kv => kv.1)

/-- `state.get("agent_status", {})`, for well-typed states. -/
def getStatusMap (state : AgentState) : List (String × AgentStatus) :=
  match dget state "agent_status" with
  | some (Value.vstatusMap m) => m
  | _ => []

/-- `state.get("execution_time", {})`, for well-typed states. -/
def getTimeMap (state : AgentState) : List (String × Rat) :=
  match dget state "execution_time" with
  | some (Value.vtimeMap m) => m
  | _ => []

/-- `state.get("error_log", [])`, for well-typed states. -/
def getErrLog (state : AgentState) : List ErrorEntry :=
  match dget state "error_log" with
  | some (Value.verrLog l) => l
  | _ => []

/-- Wall-clock durations of the two phases separating the kernel's two
`time.time()` reads (base.py lines 61 and 73/97): `dPre` is the time spent
between the `start_time` capture and the entry into `self.execute` (the
`logger.info` call and the in-place status write), `dExec` the time spent
inside `self.execute` up to its return or its raise. -/
structure KernelTiming where
  dPre : Rat
  dExec : Rat
deriving DecidableEq, Repr

/-- `BaseAgent._update_status` (base.py lines 123-127): in-place write of
`state["agent_status"][self.name] = status` (creating the inner dict when
absent), here for the `IN_PROGRESS` write at line 67. -/
def BaseAgent.update_status (name : String) (state : AgentState) : AgentState :=
  dinsert state "agent_status"
    (Value.vstatusMap (dinsert (getStatusMap state) name AgentStatus.inProgress))

/-- `BaseAgent.__call__` (base.py lines 50-121).  `count` is the value of
`self.execution_count` before the call; the second component of the result
is its value after the call.  The first component is the returned
partial-update dictionary. -/
def BaseAgent.call (name : String) (count : Nat) (tm : KernelTiming) (now : Nat)
    (execute : AgentState → Except String AgentState)
    (state : AgentState) : AgentState × Nat :=
  match execute (BaseAgent.update_status name state) with
  | Except.ok result =>
    (dupdate result
      [("last_modified_by", Value.vstr name),
       ("last_modified_at", Value.vtime now),
       ("execution_time",
         Value.vtimeMap (dinsert (getTimeMap (BaseAgent.update_status name state))
           name (tm.dPre + tm.dExec))),
       ("agent_status",
         Value.vstatusMap (dinsert (getStatusMap (BaseAgent.update_status name state))
           name AgentStatus.completed))],
     count + 1)
  | Except.error msg =>
    ([("agent_status",
        Value.vstatusMap (dinsert (getStatusMap (BaseAgent.update_status name state))
          name AgentStatus.failed)),
      ("error_log",
        Value.verrLog (getErrLog (BaseAgent.update_status name state) ++
          [⟨name, msg, now, count + 1⟩])),
      ("execution_time",
        Value.vtimeMap (dinsert (getTimeMap (BaseAgent.update_status name state))
          name (tm.dPre + tm.dExec)))],
     count + 1)

/-- `ConditionalAgent.__call__` (base.py lines 191-203): when
`should_execute` is false, return only the completed-status update and do
not touch the counter; otherwise defer to `BaseAgent.__call__`. -/
def ConditionalAgent.call (should : AgentState → Bool) (name : String)
    (count : Nat) (tm : KernelTiming) (now : Nat)
    (execute : AgentState → Except String AgentState)
    (state : AgentState) : AgentState × Nat :=
  if should state then
    BaseAgent.call name count tm now execute state
  else
    ([("agent_status",
        Value.vstatusMap (dinsert (getStatusMap state) name AgentStatus.completed))],
     count)

/-- `create_initial_state` (schema.py lines 92-146). -/
def create_initial_state (topic : String) (user_requirements : Option String)
    (target_audience tone : String) (word_count : Int) (now : Nat) : AgentState :=
  [("topic", Value.vstr topic),
   ("user_requirements",
     match user_requirements with
     | some s => Value.vstr s
     | none => Value.vnone),
   ("target_audience", Value.vstr target_audience),
   ("tone", Value.vstr tone),
   ("word_count", Value.vint word_count),
   ("research_data", Value.vstrList []),
   ("research_sources", Value.vsrcList []),
   ("research_quality", Value.vquality ResearchQuality.unknown),
   ("research_timestamp", Value.vnone),
   ("blog_post", Value.vstr ""),
   ("blog_title", Value.vnone),
   ("blog_metadata", Value.vnone),
   ("draft_iterations", Value.vint 0),
   ("editor_feedback", Value.vnone),
   ("quality_score", Value.vnone),
   ("needs_revision", Value.vbool false),
   ("agent_status", Value.vstatusMap []),
   ("execution_time", Value.vtimeMap []),
   ("error_log", Value.verrLog []),
   ("version", Value.vint 1),
   ("last_modified_by", Value.vnone),
   ("last_modified_at", Value.vtime now)]

/-- Python truthiness of a state value (`not state[field]`).  Enum members
of a `str` enum with a non-empty value are truthy; `datetime` values are
truthy. -/
def pyTruthy : Value → Bool
  | Value.vstr s => s != ""
  | Value.vnum q => q != 0
  | Value.vint n => n != 0
  | Value.vbool b => b
  | Value.vnone => false
  | Value.vstatus _ => true
  | Value.vquality _ => true
  | Value.vtime _ => true
  | Value.vstrList l => l != []
  | Value.vsrcList l => l != []
  | Value.vstatusMap m => m != []
  | Value.vtimeMap m => m != []
  | Value.verrLog l => l != []

/-- Python `len()` of a state value; `none` models the `TypeError` raised
on an unsized value. -/
def pyLen : Value → Option Nat
  | Value.vstr s => some s.length
  | Value.vstrList l => some l.length
  | Value.vsrcList l => some l.length
  | Value.vstatusMap m => some m.length
  | Value.vtimeMap m => some m.length
  | Value.verrLog l => some l.length
  | _ => none

/-- `validate_state` (schema.py lines 149-169).  The `Except` layer records
that `len()` would raise on an unsized topic value; for string topics the
result is always `Except.ok`. -/
def validate_state (state : AgentState) : Except String (Bool × Option String) :=
  match dget state "topic" with
  | none => Except.ok (false, some "Missing required field: topic")
  | some v =>
    if pyTruthy v then
      match pyLen v with
      | none => Except.error "TypeError"
      | some n =>
        if n < 3 then
          Except.ok (false, some "Topic must be at least 3 characters long")
        else if 200 < n then
          Except.ok (false, some "Topic must be less than 200 characters")
        else
          Except.ok (true, none)
    else
      Except.ok (false, some "Missing required field: topic")

/-- One normalised search result (search.py: the dicts each provider's
`search` builds). -/
structure SearchResult where
  title : String
  link : String
  snippet : String
deriving DecidableEq, Repr

/-- One raw item yielded by `ddgs.text` (search.py lines 55-60): a dict
read with `.get(key, "")`, so each field may be absent. -/
structure DDGRaw where
  title : Option String
  href : Option String
  body : Option String
deriving DecidableEq, Repr

/-- `DuckDuckGoSearch.search` (search.py lines 39-67).  `transport` models
the `DDGS().text(query, max_results=...)` iteration: `Except.ok` carries
the raw results it yields, `Except.error` the exception it raises (in
which case any partially accumulated results are discarded by the
`except` handler, which returns `[]`). -/
def DuckDuckGoSearch.search
    (transport : String → Nat → Except String (List DDGRaw))
    (query : String) (maxResults : Nat) : List SearchResult :=
  match transport query maxResults with
  | Except.error _ => []
  | Except.ok raws =>
    raws.map fun r =>
      { title := r.title.getD "", link := r.href.getD "",
        snippet := r.body.getD "" }

/-- One item of the Serper response's `organic` list (search.py
lines 114-119), fields read with `.get(key, "")`. -/
structure SerperItem where
  title : Option String
  link : Option String
  snippet : Option String
deriving DecidableEq, Repr

/-- The parsed Serper response body; `organic` is read with
`data.get("organic", [])`. -/
structure SerperData where
  organic : Option (List SerperItem)
deriving DecidableEq, Repr

/-- `SerperSearch.search` (search.py lines 81-126).  `transport` models
`session.post` + `raise_for_status` + `response.json()`: `Except.error`
covers any transport, timeout, HTTP-status or JSON-parsing exception,
caught by the `except` handler which returns `[]`. -/
def SerperSearch.search
    (transport : String → Nat → Except String SerperData)
    (query : String) (maxResults : Nat) : List SearchResult :=
  match transport query maxResults with
  | Except.error _ => []
  | Except.ok data =>
    ((data.organic.getD []).take maxResults).map fun i =>
      { title := i.title.getD "", link := i.link.getD "",
        snippet := i.snippet.getD "" }

/-- One item of the Tavily response's `results` list (search.py
lines 169-174). -/
structure TavilyItem where
  title : Option String
  url : Option String
  content : Option String
deriving DecidableEq, Repr

/-- The parsed Tavily response body; `results` is read with
`data.get("results", [])`. -/
structure TavilyData where
  results : Option (List TavilyItem)
deriving DecidableEq, Repr

/-- `TavilySearch.search` (search.py lines 140-181), same error policy as
Serper. -/
def TavilySearch.search
    (transport : String → Nat → Except String TavilyData)
    (query : String) (maxResults : Nat) : List SearchResult :=
  match transport query maxResults with
  | Except.error _ => []
  | Except.ok data =>
    ((data.results.getD []).take maxResults).map fun i =>
      { title := i.title.getD "", link := i.url.getD "",
        snippet := i.content.getD "" }

/-- Python `max_results or self.max_results` (search.py line 235): the
per-call override is used only when it is truthy (present and non-zero). -/
def pyOrNat : Option Nat → Nat → Nat
  | some n, d => if n = 0 then d else n
  | none, d => d

/-- `SearchTool.search` (search.py lines 224-241): delegate to the
configured provider with the resolved result limit.  `selfMax` is the
constructor-configured `self.max_results`; `provider` the selected
provider's `search`. -/
def SearchTool.search (selfMax : Nat)
    (provider : String → Nat → List SearchResult)
    (query : String) (maxResults : Option Nat) : List SearchResult :=
  provider query (pyOrNat maxResults selfMax)

/-! ## Dictionary lemmas -/

theorem dget_dinsert_self {V : Type} (d : List (String × V)) (k : String) (v : V) :
    dget (dinsert d k v) k = some v := by
  induction d with
  | nil => simp [dinsert, dget]
  | cons kv rest ih =>
    obtain ⟨k', v'⟩ := kv
    by_cases h : k' = k
    · simp [dinsert, dget, h]
    · simp [dinsert, dget, h, ih]

theorem dget_dinsert_ne {V : Type} (d : List (String × V)) {k k' : String}
    (h : k' ≠ k) (v : V) : dget (dinsert d k' v) k = dget d k := by
  induction d with
  | nil => simp [dinsert, dget, h]
  | cons kv rest ih =>
    obtain ⟨k₀, v₀⟩ := kv
    by_cases h0 : k₀ = k'
    · subst h0
      simp [dinsert, dget, h]
    · simp [dinsert, dget, h0, ih]

theorem dget_dupdate_none {V : Type} (u d : List (String × V)) (k : String)
    (h : dget u k = none) : dget (dupdate d u) k = dget d k := by
  induction u generalizing d with
  | nil => simp [dupdate]
  | cons kv rest ih =>
    obtain ⟨k', v⟩ := kv
    by_cases hk : k' = k
    · simp [dget, hk] at h
    · simp only [dget, if_neg hk] at h
      show dget (dupdate (dinsert d k' v) rest) k = dget d k
      rw [ih (dinsert d k' v) h, dget_dinsert_ne _ hk]

theorem dkeys_cons {V : Type} (k : String) (v : V) (d : List (String × V)) :
    dkeys ((k, v) :: d) = k :: dkeys d := rfl

theorem dkeys_dinsert {V : Type} (d : List (String × V)) (k : String) (v : V) :
    dkeys (dinsert d k v) =
      if k ∈ dkeys d then dkeys d else dkeys d ++ [k] := by
  induction d with
  | nil => simp [dinsert, dkeys]
  | cons kv rest ih =>
    obtain ⟨k', v'⟩ := kv
    by_cases h : k' = k
    · subst h
      have h1 : dinsert ((k', v') :: rest) k' v = (k', v) :: rest := by
        simp [dinsert]
      rw [h1, dkeys_cons, dkeys_cons, if_pos (List.mem_cons_self k' _)]
    · have hne : k ≠ k' := fun hk => h hk.symm
      have h1 : dinsert ((k', v') :: rest) k v = (k', v') :: dinsert rest k v := by
        simp [dinsert, h]
      rw [h1, dkeys_cons, dkeys_cons, ih]
      by_cases hm : k ∈ dkeys rest
      · rw [if_pos hm, if_pos (by simp [List.mem_cons, hm])]
      · rw [if_neg hm, if_neg (by simp [List.mem_cons, hne, hm])]
        simp

theorem nodup_dkeys_dinsert {V : Type} (d : List (String × V)) (k : String)
    (v : V) (h : (dkeys d).Nodup) : (dkeys (dinsert d k v)).Nodup := by
  rw [dkeys_dinsert]
  by_cases hm : k ∈ dkeys d
  · simpa [hm] using h
  · simp only [hm, if_false]
    exact List.Nodup.append h (List.nodup_singleton k)
      (by simpa using fun hx => fun hk : k = k => hm (hk ▸ hx))

theorem dget_triple_ne {V : Type} (k1 k2 k3 k : String) (v1 v2 v3 : V)
    (h1 : k1 ≠ k) (h2 : k2 ≠ k) (h3 : k3 ≠ k) :
    dget [(k1, v1), (k2, v2), (k3, v3)] k = none := by
  simp [dget, h1, h2, h3]

/-- Folding a failure update into a state replaces its error log with the
update's. -/
theorem getErrLog_dupdate_failure (state : AgentState)
    (a : List (String × AgentStatus)) (l : List ErrorEntry)
    (t : List (String × Rat)) :
    getErrLog (dupdate state
      [("agent_status", Value.vstatusMap a),
       ("error_log", Value.verrLog l),
       ("execution_time", Value.vtimeMap t)]) = l := by
  show getErrLog (dinsert (dinsert (dinsert state
      "agent_status" (Value.vstatusMap a))
      "error_log" (Value.verrLog l))
      "execution_time" (Value.vtimeMap t)) = l
  unfold getErrLog
  rw [dget_dinsert_ne _ (by decide), dget_dinsert_self]

theorem dinsert_dinsert_self {V : Type} (d : List (String × V)) (k : String)
    (v w : V) : dinsert (dinsert d k v) k w = dinsert d k w := by
  induction d with
  | nil => simp [dinsert]
  | cons kv rest ih =>
    obtain ⟨k', v'⟩ := kv
    by_cases h : k' = k
    · simp [dinsert, h]
    · simp [dinsert, h, ih]

/-! ## Kernel computation lemmas -/

theorem getStatusMap_update_status (name : String) (state : AgentState) :
    getStatusMap (BaseAgent.update_status name state) =
      dinsert (getStatusMap state) name AgentStatus.inProgress := by
  unfold getStatusMap BaseAgent.update_status
  rw [dget_dinsert_self]
  rfl

theorem getTimeMap_update_status (name : String) (state : AgentState) :
    getTimeMap (BaseAgent.update_status name state) = getTimeMap state := by
  unfold getTimeMap BaseAgent.update_status
  rw [dget_dinsert_ne _ (by decide)]

theorem getErrLog_update_status (name : String) (state : AgentState) :
    getErrLog (BaseAgent.update_status name state) = getErrLog state := by
  unfold getErrLog BaseAgent.update_status
  rw [dget_dinsert_ne _ (by decide)]

/-- Success branch of the kernel, written out as nested dict writes. -/
theorem call_ok (name : String) (count : Nat) (tm : KernelTiming) (now : Nat)
    (execute : AgentState → Except String AgentState) (state result : AgentState)
    (h : execute (BaseAgent.update_status name state) = Except.ok result) :
    BaseAgent.call name count tm now execute state =
      (dinsert (dinsert (dinsert (dinsert result
          "last_modified_by" (Value.vstr name))
          "last_modified_at" (Value.vtime now))
          "execution_time" (Value.vtimeMap
            (dinsert (getTimeMap state) name (tm.dPre + tm.dExec))))
          "agent_status" (Value.vstatusMap
            (dinsert (getStatusMap state) name AgentStatus.completed)),
       count + 1) := by
  unfold BaseAgent.call
  rw [h, getTimeMap_update_status, getStatusMap_update_status,
    dinsert_dinsert_self]
  rfl

/-- Failure branch of the kernel, written out. -/
theorem call_error (name : String) (count : Nat) (tm : KernelTiming) (now : Nat)
    (execute : AgentState → Except String AgentState) (state : AgentState)
    (msg : String)
    (h : execute (BaseAgent.update_status name state) = Except.error msg) :
    BaseAgent.call name count tm now execute state =
      ([("agent_status", Value.vstatusMap
          (dinsert (getStatusMap state) name AgentStatus.failed)),
        ("error_log", Value.verrLog
          (getErrLog state ++ [⟨name, msg, now, count + 1⟩])),
        ("execution_time", Value.vtimeMap
          (dinsert (getTimeMap state) name (tm.dPre + tm.dExec)))],
       count + 1) := by
  unfold BaseAgent.call
  rw [h]
  simp only [getTimeMap_update_status, getStatusMap_update_status,
    getErrLog_update_status, dinsert_dinsert_self]

/-- The per-instance invocation counter advances by exactly one on every
kernel call, whatever the outcome. -/
theorem call_count (name : String) (count : Nat) (tm : KernelTiming) (now : Nat)
    (execute : AgentState → Except String AgentState) (state : AgentState) :
    (BaseAgent.call name count tm now execute state).2 = count + 1 := by
  unfold BaseAgent.call
  cases execute (BaseAgent.update_status name state) <;> rfl

/-! ## Claims -/

/-- C1: for every agent whose domain logic returns normally with a
partial-update map (e.g. `{draft: "hello"}`), invoking the kernel returns
a merged update in which the agent's status entry equals `completed`, the
agent's execution-time entry is a duration ≥ 0, `last_modified_by` equals
the agent's name, and the agent's returned domain field is present with
its returned value. -/
theorem kernel_success_merged_update (name : String) (count : Nat)
    (tm : KernelTiming) (now : Nat)
    (execute : AgentState → Except String AgentState) (state result : AgentState)
    (hPre : 0 ≤ tm.dPre) (hExec : 0 ≤ tm.dExec)
    (hok : execute (BaseAgent.update_status name state) = Except.ok result)
    (hdraft : dget result "draft" = some (Value.vstr "hello")) :
    (∃ m, dget (BaseAgent.call name count tm now execute state).1 "agent_status"
        = some (Value.vstatusMap m) ∧ dget m name = some AgentStatus.completed) ∧
    (∃ em t, dget (BaseAgent.call name count tm now execute state).1 "execution_time"
        = some (Value.vtimeMap em) ∧ dget em name = some t ∧ 0 ≤ t) ∧
    dget (BaseAgent.call name count tm now execute state).1 "last_modified_by"
      = some (Value.vstr name) ∧
    dget (BaseAgent.call name count tm now execute state).1 "draft"
      = some (Value.vstr "hello") := by
  rw [call_ok name count tm now execute state result hok]
  refine ⟨⟨_, dget_dinsert_self _ _ _, dget_dinsert_self _ _ _⟩,
    ⟨dinsert (getTimeMap state) name (tm.dPre + tm.dExec), tm.dPre + tm.dExec,
      ?_, dget_dinsert_self _ _ _, add_nonneg hPre hExec⟩, ?_, ?_⟩
  · rw [dget_dinsert_ne _ (by decide), dget_dinsert_self]
  · rw [dget_dinsert_ne _ (by decide), dget_dinsert_ne _ (by decide),
      dget_dinsert_ne _ (by decide), dget_dinsert_self]
  · rw [dget_dinsert_ne _ (by decide), dget_dinsert_ne _ (by decide),
      dget_dinsert_ne _ (by decide), dget_dinsert_ne _ (by decide), hdraft]

/-- Concrete run of C1: an agent returning `{draft: "hello"}`. -/
theorem kernel_success_merged_update_witness :
    dget (BaseAgent.call "Writer" 0 ⟨0, 0⟩ 7
        (fun _ => Except.ok [("draft", Value.vstr "hello")]) []).1
      "last_modified_by" = some (Value.vstr "Writer") ∧
    dget (BaseAgent.call "Writer" 0 ⟨0, 0⟩ 7
        (fun _ => Except.ok [("draft", Value.vstr "hello")]) []).1
      "draft" = some (Value.vstr "hello") :=
  ⟨(kernel_success_merged_update "Writer" 0 ⟨0, 0⟩ 7
      (fun _ => Except.ok [("draft", Value.vstr "hello")]) []
      [("draft", Value.vstr "hello")] le_rfl le_rfl rfl rfl).2.2.1,
   (kernel_success_merged_update "Writer" 0 ⟨0, 0⟩ 7
      (fun _ => Except.ok [("draft", Value.vstr "hello")]) []
      [("draft", Value.vstr "hello")] le_rfl le_rfl rfl rfl).2.2.2⟩

/-- C2: for every agent whose domain logic raises an error with message
`msg`, the kernel call returns (it does not re-raise) a well-formed
partial update with the agent's status `failed`, exactly one new
error-log entry carrying the agent's name, the message, a timestamp and
the current invocation count, and no domain-field change; the invocation
counter advances by exactly 1 on every call regardless of outcome, so two
consecutive failing calls append two distinct entries numbered 1 and 2. -/
theorem kernel_failure_update (name : String) (count : Nat)
    (tm tm2 : KernelTiming) (now now2 : Nat)
    (execute execute2 : AgentState → Except String AgentState)
    (state : AgentState) (msg msg2 : String)
    (hfail : execute (BaseAgent.update_status name state) = Except.error msg)
    (hfail2 : execute2 (BaseAgent.update_status name
        (dupdate state (BaseAgent.call name 0 tm now execute state).1))
      = Except.error msg2) :
    (∃ m, dget (BaseAgent.call name count tm now execute state).1 "agent_status"
        = some (Value.vstatusMap m) ∧ dget m name = some AgentStatus.failed) ∧
    dget (BaseAgent.call name count tm now execute state).1 "error_log"
      = some (Value.verrLog (getErrLog state ++ [⟨name, msg, now, count + 1⟩])) ∧
    (∀ k, k ≠ "agent_status" → k ≠ "error_log" → k ≠ "execution_time" →
      dget (BaseAgent.call name count tm now execute state).1 k = none) ∧
    (∀ (c : Nat) (tm' : KernelTiming) (now' : Nat)
        (ex : AgentState → Except String AgentState) (st : AgentState),
      (BaseAgent.call name c tm' now' ex st).2 = c + 1) ∧
    dget (BaseAgent.call name 1 tm2 now2 execute2
        (dupdate state (BaseAgent.call name 0 tm now execute state).1)).1 "error_log"
      = some (Value.verrLog (getErrLog state ++
          [⟨name, msg, now, 1⟩, ⟨name, msg2, now2, 2⟩])) ∧
    (⟨name, msg, now, 1⟩ : ErrorEntry) ≠ ⟨name, msg2, now2, 2⟩ := by
  have h1 := call_error name count tm now execute state msg hfail
  have h10 := call_error name 0 tm now execute state msg hfail
  have h2 := call_error name 1 tm2 now2 execute2
    (dupdate state (BaseAgent.call name 0 tm now execute state).1) msg2 hfail2
  refine ⟨?_, ?_, ?_, ?_, ?_, ?_⟩
  · rw [h1]
    exact ⟨dinsert (getStatusMap state) name AgentStatus.failed,
      by simp [dget], dget_dinsert_self _ _ _⟩
  · rw [h1]
    simp [dget]
  · intro k hk1 hk2 hk3
    rw [h1]
    exact dget_triple_ne "agent_status" "error_log" "execution_time" k _ _ _
      hk1.symm hk2.symm hk3.symm
  · intro c tm' now' ex st
    exact call_count name c tm' now' ex st
  · rw [h2]
    have hlog : getErrLog
        (dupdate state (BaseAgent.call name 0 tm now execute state).1)
        = getErrLog state ++ [⟨name, msg, now, 1⟩] := by
      rw [h10]
      exact getErrLog_dupdate_failure state _ _ _
    rw [hlog]
    simp [dget, List.append_assoc]
  · intro h
    have := congrArg ErrorEntry.execution_count h
    simp at this

/-- Concrete run of C2: two consecutive calls of an agent raising
`"boom"` then `"boom2"`. -/
theorem kernel_failure_update_witness :
    dget (BaseAgent.call "Researcher" 0 ⟨0, 0⟩ 3
        (fun _ => Except.error "boom") []).1 "error_log"
      = some (Value.verrLog [⟨"Researcher", "boom", 3, 1⟩]) ∧
    dget (BaseAgent.call "Researcher" 1 ⟨0, 0⟩ 4
        (fun _ => Except.error "boom2")
        (dupdate [] (BaseAgent.call "Researcher" 0 ⟨0, 0⟩ 3
          (fun _ => Except.error "boom") []).1)).1 "error_log"
      = some (Value.verrLog
          [⟨"Researcher", "boom", 3, 1⟩, ⟨"Researcher", "boom2", 4, 2⟩]) :=
  ⟨(kernel_failure_update "Researcher" 0 ⟨0, 0⟩ ⟨0, 0⟩ 3 4
      (fun _ => Except.error "boom") (fun _ => Except.error "boom2") []
      "boom" "boom2" rfl rfl).2.1,
   (kernel_failure_update "Researcher" 0 ⟨0, 0⟩ ⟨0, 0⟩ 3 4
      (fun _ => Except.error "boom") (fun _ => Except.error "boom2") []
      "boom" "boom2" rfl rfl).2.2.2.2.1⟩

/-- C3 counterexample: an agent returning a map whose key collides with
the kernel metadata field `last_modified_by` does **not** win the merge —
the final merged result carries the kernel's value (the agent name "A"),
not the agent's returned value "evil", because `result.update(metadata)`
folds the kernel's metadata on top of the agent's map. -/
theorem merge_priority_counterexample :
    dget (BaseAgent.call "A" 0 ⟨0, 0⟩ 5
        (fun _ => Except.ok [("last_modified_by", Value.vstr "evil")]) []).1
      "last_modified_by" = some (Value.vstr "A") ∧
    Value.vstr "A" ≠ Value.vstr "evil" := by
  constructor
  · rw [call_ok "A" 0 ⟨0, 0⟩ 5 _ [] [("last_modified_by", Value.vstr "evil")] rfl]
    rw [dget_dinsert_ne _ (by decide), dget_dinsert_ne _ (by decide),
      dget_dinsert_ne _ (by decide), dget_dinsert_self]
  · simp

/-- C3 amended: on the success path the kernel's metadata dict is merged
on top of the agent's returned map (`result.update(metadata)`): every
returned key not among the four metadata keys keeps the agent's returned
value, while for `last_modified_by`, `last_modified_at`,
`execution_time` and `agent_status` the kernel's computed values
overwrite any colliding agent-returned value, so the metadata fields are
always present and correct in the merged result. -/
theorem merge_priority_amended (name : String) (count : Nat)
    (tm : KernelTiming) (now : Nat)
    (execute : AgentState → Except String AgentState) (state result : AgentState)
    (hok : execute (BaseAgent.update_status name state) = Except.ok result) :
    (∀ k, k ≠ "last_modified_by" → k ≠ "last_modified_at" →
      k ≠ "execution_time" → k ≠ "agent_status" →
      dget (BaseAgent.call name count tm now execute state).1 k = dget result k) ∧
    dget (BaseAgent.call name count tm now execute state).1 "last_modified_by"
      = some (Value.vstr name) ∧
    dget (BaseAgent.call name count tm now execute state).1 "last_modified_at"
      = some (Value.vtime now) ∧
    dget (BaseAgent.call name count tm now execute state).1 "execution_time"
      = some (Value.vtimeMap (dinsert (getTimeMap state) name (tm.dPre + tm.dExec))) ∧
    dget (BaseAgent.call name count tm now execute state).1 "agent_status"
      = some (Value.vstatusMap (dinsert (getStatusMap state) name AgentStatus.completed)) := by
  rw [call_ok name count tm now execute state result hok]
  refine ⟨?_, ?_, ?_, ?_, dget_dinsert_self _ _ _⟩
  · intro k hk1 hk2 hk3 hk4
    rw [dget_dinsert_ne _ hk4.symm, dget_dinsert_ne _ hk3.symm,
      dget_dinsert_ne _ hk2.symm, dget_dinsert_ne _ hk1.symm]
  · rw [dget_dinsert_ne _ (by decide), dget_dinsert_ne _ (by decide),
      dget_dinsert_ne _ (by decide), dget_dinsert_self]
  · rw [dget_dinsert_ne _ (by decide), dget_dinsert_ne _ (by decide),
      dget_dinsert_self]
  · rw [dget_dinsert_ne _ (by decide), dget_dinsert_self]

/-- Concrete run of C3 amended: the domain key survives, the metadata key
is the kernel's. -/
theorem merge_priority_amended_witness :
    dget (BaseAgent.call "A" 0 ⟨0, 0⟩ 5
        (fun _ => Except.ok [("draft", Value.vstr "d"),
          ("last_modified_by", Value.vstr "evil")]) []).1
      "draft" = some (Value.vstr "d") ∧
    dget (BaseAgent.call "A" 0 ⟨0, 0⟩ 5
        (fun _ => Except.ok [("draft", Value.vstr "d"),
          ("last_modified_by", Value.vstr "evil")]) []).1
      "last_modified_by" = some (Value.vstr "A") :=
  ⟨by
    rw [(merge_priority_amended "A" 0 ⟨0, 0⟩ 5
      (fun _ => Except.ok [("draft", Value.vstr "d"),
        ("last_modified_by", Value.vstr "evil")]) []
      [("draft", Value.vstr "d"), ("last_modified_by", Value.vstr "evil")]
      rfl).1 "draft" (by decide) (by decide) (by decide) (by decide)]
    rfl,
   (merge_priority_amended "A" 0 ⟨0, 0⟩ 5
      (fun _ => Except.ok [("draft", Value.vstr "d"),
        ("last_modified_by", Value.vstr "evil")]) []
      [("draft", Value.vstr "d"), ("last_modified_by", Value.vstr "evil")]
      rfl).2.1⟩

/-- C4 counterexample: after a failed execution the kernel's update sets
none of the versioning fields — `last_modified_by`, `last_modified_at`
and `version` are all absent from the returned partial update, contrary
to "updated by the kernel after every successful or failed execution". -/
theorem versioning_failure_counterexample :
    dget (BaseAgent.call "A" 0 ⟨0, 0⟩ 5
        (fun _ => Except.error "boom") []).1 "last_modified_by" = none ∧
    dget (BaseAgent.call "A" 0 ⟨0, 0⟩ 5
        (fun _ => Except.error "boom") []).1 "last_modified_at" = none ∧
    dget (BaseAgent.call "A" 0 ⟨0, 0⟩ 5
        (fun _ => Except.error "boom") []).1 "version" = none := by
  refine ⟨?_, ?_, ?_⟩ <;>
    (rw [call_error "A" 0 ⟨0, 0⟩ 5 _ [] "boom" rfl]
     exact dget_triple_ne _ _ _ _ _ _ _ (by decide) (by decide) (by decide))

/-- C4 amended: after every **successful** execution the kernel sets
`last_modified_by` to the agent's name and `last_modified_at` to the
current time; after a **failed** execution it sets neither.  The kernel
never writes the `version` counter on either path: `version` is 1 at
state creation and, being untouched by the kernel, is trivially
monotonically non-decreasing across invocations. -/
theorem versioning_kernel_amended (name : String) (count : Nat)
    (tm : KernelTiming) (now : Nat)
    (execOk execBad : AgentState → Except String AgentState)
    (state result : AgentState) (msg : String)
    (topic : String) (ur : Option String) (ta tone : String) (wc : Int)
    (tnow : Nat)
    (hok : execOk (BaseAgent.update_status name state) = Except.ok result)
    (hver : dget result "version" = none)
    (hbad : execBad (BaseAgent.update_status name state) = Except.error msg) :
    dget (BaseAgent.call name count tm now execOk state).1 "last_modified_by"
      = some (Value.vstr name) ∧
    dget (BaseAgent.call name count tm now execOk state).1 "last_modified_at"
      = some (Value.vtime now) ∧
    dget (BaseAgent.call name count tm now execOk state).1 "version" = none ∧
    dget (BaseAgent.call name count tm now execBad state).1 "last_modified_by"
      = none ∧
    dget (BaseAgent.call name count tm now execBad state).1 "last_modified_at"
      = none ∧
    dget (BaseAgent.call name count tm now execBad state).1 "version" = none ∧
    dget (create_initial_state topic ur ta tone wc tnow) "version"
      = some (Value.vint 1) := by
  have hcall := merge_priority_amended name count tm now execOk state result hok
  have hbadcall := call_error name count tm now execBad state msg hbad
  refine ⟨hcall.2.1, hcall.2.2.1, ?_, ?_, ?_, ?_, ?_⟩
  · rw [hcall.1 "version" (by decide) (by decide) (by decide) (by decide), hver]
  · rw [hbadcall]
    exact dget_triple_ne _ _ _ _ _ _ _ (by decide) (by decide) (by decide)
  · rw [hbadcall]
    exact dget_triple_ne _ _ _ _ _ _ _ (by decide) (by decide) (by decide)
  · rw [hbadcall]
    exact dget_triple_ne _ _ _ _ _ _ _ (by decide) (by decide) (by decide)
  · rfl

/-- Concrete run of C4 amended. -/
theorem versioning_kernel_amended_witness :
    dget (BaseAgent.call "A" 0 ⟨0, 0⟩ 5
        (fun _ => Except.ok []) []).1 "last_modified_by"
      = some (Value.vstr "A") ∧
    dget (BaseAgent.call "A" 0 ⟨0, 0⟩ 5
        (fun _ => Except.error "boom") []).1 "version" = none ∧
    dget (create_initial_state "Rust" none "general" "professional" 500 9)
      "version" = some (Value.vint 1) :=
  ⟨(versioning_kernel_amended "A" 0 ⟨0, 0⟩ 5
      (fun _ => Except.ok []) (fun _ => Except.error "boom") [] [] "boom"
      "Rust" none "general" "professional" 500 9 rfl rfl rfl).1,
   (versioning_kernel_amended "A" 0 ⟨0, 0⟩ 5
      (fun _ => Except.ok []) (fun _ => Except.error "boom") [] [] "boom"
      "Rust" none "general" "professional" 500 9 rfl rfl rfl).2.2.2.2.2.1,
   (versioning_kernel_amended "A" 0 ⟨0, 0⟩ 5
      (fun _ => Except.ok []) (fun _ => Except.error "boom") [] [] "boom"
      "Rust" none "general" "professional" 500 9 rfl rfl rfl).2.2.2.2.2.2⟩

/-- C5: for every kernel invocation the merged state's error log has the
input error log as an unchanged front segment — the success path leaves
it untouched and the failure path appends exactly one entry, so it
strictly grows across failing invocations — and re-invoking a
previously-completed agent overwrites its single `agent_status` /
`execution_time` entry (and `last_modified_by`) without duplicating map
entries. -/
theorem error_log_append_only (name : String) (count : Nat)
    (tm : KernelTiming) (now : Nat)
    (execOk execBad : AgentState → Except String AgentState)
    (state result : AgentState) (msg : String)
    (hok : execOk (BaseAgent.update_status name state) = Except.ok result)
    (hres : dget result "error_log" = none)
    (hbad : execBad (BaseAgent.update_status name state) = Except.error msg)
    (hnodupS : (dkeys (getStatusMap state)).Nodup)
    (hnodupT : (dkeys (getTimeMap state)).Nodup) :
    getErrLog (dupdate state (BaseAgent.call name count tm now execOk state).1)
      = getErrLog state ∧
    getErrLog (dupdate state (BaseAgent.call name count tm now execBad state).1)
      = getErrLog state ++ [⟨name, msg, now, count + 1⟩] ∧
    (getErrLog state).length <
      (getErrLog (dupdate state (BaseAgent.call name count tm now execBad state).1)).length ∧
    (∃ m, dget (BaseAgent.call name count tm now execOk state).1 "agent_status"
        = some (Value.vstatusMap m) ∧ dget m name = some AgentStatus.completed ∧
        (dkeys m).Nodup) ∧
    (∃ em, dget (BaseAgent.call name count tm now execOk state).1 "execution_time"
        = some (Value.vtimeMap em) ∧ dget em name = some (tm.dPre + tm.dExec) ∧
        (dkeys em).Nodup) ∧
    dget (BaseAgent.call name count tm now execOk state).1 "last_modified_by"
      = some (Value.vstr name) := by
  have hcall := call_ok name count tm now execOk state result hok
  have hbadcall := call_error name count tm now execBad state msg hbad
  have hfail : getErrLog (dupdate state (BaseAgent.call name count tm now execBad state).1)
      = getErrLog state ++ [⟨name, msg, now, count + 1⟩] := by
    rw [hbadcall]
    exact getErrLog_dupdate_failure state _ _ _
  refine ⟨?_, hfail, ?_, ?_, ?_, ?_⟩
  · have hnone : dget (BaseAgent.call name count tm now execOk state).1 "error_log"
        = none := by
      rw [hcall]
      rw [dget_dinsert_ne _ (by decide), dget_dinsert_ne _ (by decide),
        dget_dinsert_ne _ (by decide), dget_dinsert_ne _ (by decide), hres]
    unfold getErrLog
    rw [dget_dupdate_none _ _ _ hnone]
  · rw [hfail]
    simp
  · rw [hcall]
    exact ⟨dinsert (getStatusMap state) name AgentStatus.completed,
      dget_dinsert_self _ _ _, dget_dinsert_self _ _ _,
      nodup_dkeys_dinsert _ _ _ hnodupS⟩
  · rw [hcall]
    refine ⟨dinsert (getTimeMap state) name (tm.dPre + tm.dExec), ?_,
      dget_dinsert_self _ _ _, nodup_dkeys_dinsert _ _ _ hnodupT⟩
    rw [dget_dinsert_ne _ (by decide), dget_dinsert_self]
  · rw [hcall]
    rw [dget_dinsert_ne _ (by decide), dget_dinsert_ne _ (by decide),
      dget_dinsert_ne _ (by decide), dget_dinsert_self]

/-- Concrete run of C5: a success call after a completed entry already
exists for the agent, and a failing call. -/
theorem error_log_append_only_witness :
    getErrLog (dupdate
        [("agent_status", Value.vstatusMap [("A", AgentStatus.completed)]),
         ("execution_time", Value.vtimeMap [("A", 2)]),
         ("error_log", Value.verrLog [])]
        (BaseAgent.call "A" 1 ⟨0, 0⟩ 5 (fun _ => Except.ok [])
          [("agent_status", Value.vstatusMap [("A", AgentStatus.completed)]),
           ("execution_time", Value.vtimeMap [("A", 2)]),
           ("error_log", Value.verrLog [])]).1)
      = getErrLog
          [("agent_status", Value.vstatusMap [("A", AgentStatus.completed)]),
           ("execution_time", Value.vtimeMap [("A", 2)]),
           ("error_log", Value.verrLog [])] ∧
    (∃ m, dget (BaseAgent.call "A" 1 ⟨0, 0⟩ 5 (fun _ => Except.ok [])
          [("agent_status", Value.vstatusMap [("A", AgentStatus.completed)]),
           ("execution_time", Value.vtimeMap [("A", 2)]),
           ("error_log", Value.verrLog [])]).1 "agent_status"
        = some (Value.vstatusMap m) ∧ dget m "A" = some AgentStatus.completed ∧
        (dkeys m).Nodup) :=
  ⟨(error_log_append_only "A" 1 ⟨0, 0⟩ 5
      (fun _ => Except.ok []) (fun _ => Except.error "boom")
      [("agent_status", Value.vstatusMap [("A", AgentStatus.completed)]),
       ("execution_time", Value.vtimeMap [("A", 2)]),
       ("error_log", Value.verrLog [])] [] "boom"
      rfl rfl rfl (by decide) (by decide)).1,
   (error_log_append_only "A" 1 ⟨0, 0⟩ 5
      (fun _ => Except.ok []) (fun _ => Except.error "boom")
      [("agent_status", Value.vstatusMap [("A", AgentStatus.completed)]),
       ("execution_time", Value.vtimeMap [("A", 2)]),
       ("error_log", Value.verrLog [])] [] "boom"
      rfl rfl rfl (by decide) (by decide)).2.2.2.1⟩

/-- Normal form of `validate_state` on a string topic. -/
theorem validate_state_vstr (state : AgentState) (s : String)
    (htopic : dget state "topic" = some (Value.vstr s)) :
    validate_state state =
      (if s = "" then Except.ok (false, some "Missing required field: topic")
       else if s.length < 3 then
         Except.ok (false, some "Topic must be at least 3 characters long")
       else if 200 < s.length then
         Except.ok (false, some "Topic must be less than 200 characters")
       else Except.ok (true, none)) := by
  unfold validate_state
  rw [htopic]
  by_cases hs : s = ""
  · simp [hs, pyTruthy]
  · simp [pyTruthy, pyLen, hs]

/-- C6: `validate_state` passes iff the `topic` field is present with a
non-empty value of length in [3, 200]; it rejects an absent topic, the
empty topic, any topic of fewer than 3 characters and any topic of 201 or
more characters, each with a human-readable reason. -/
theorem validate_state_topic (state : AgentState) (s : String)
    (htopic : dget state "topic" = some (Value.vstr s)) :
    (validate_state state = Except.ok (true, none) ↔
      (3 ≤ s.length ∧ s.length ≤ 200)) ∧
    (s = "" →
      validate_state state = Except.ok (false, some "Missing required field: topic")) ∧
    (s ≠ "" → s.length < 3 →
      validate_state state
        = Except.ok (false, some "Topic must be at least 3 characters long")) ∧
    (201 ≤ s.length →
      validate_state state
        = Except.ok (false, some "Topic must be less than 200 characters")) ∧
    (∀ st2 : AgentState, dget st2 "topic" = none →
      validate_state st2 = Except.ok (false, some "Missing required field: topic")) := by
  have hval := validate_state_vstr state s htopic
  refine ⟨⟨?_, ?_⟩, ?_, ?_, ?_, ?_⟩
  · intro h
    rw [hval] at h
    split_ifs at h with h0 h3 h200
    · simp at h
    · simp at h
    · simp at h
    · exact ⟨by omega, by omega⟩
  · rintro ⟨h3, h200⟩
    have h0 : ¬s = "" := by
      intro e
      rw [e] at h3
      exact absurd h3 (by decide)
    rw [hval, if_neg h0, if_neg (by omega), if_neg (by omega)]
  · intro h0
    rw [hval, if_pos h0]
  · intro h0 h3
    rw [hval, if_neg h0, if_pos h3]
  · intro h201
    have h0 : ¬s = "" := by
      intro e
      rw [e] at h201
      exact absurd h201 (by decide)
    rw [hval, if_neg h0, if_neg (by omega), if_pos (by omega)]
  · intro st2 h2
    unfold validate_state
    rw [h2]

/-- Concrete runs of C6 at the boundary examples. -/
theorem validate_state_topic_witness :
    validate_state [("topic", Value.vstr "abc")] = Except.ok (true, none) ∧
    validate_state [("topic", Value.vstr "")]
      = Except.ok (false, some "Missing required field: topic") ∧
    validate_state [("topic", Value.vstr "ab")]
      = Except.ok (false, some "Topic must be at least 3 characters long") :=
  ⟨(validate_state_topic [("topic", Value.vstr "abc")] "abc" rfl).1.mpr
      (by decide),
   (validate_state_topic [("topic", Value.vstr "")] "" rfl).2.1 rfl,
   (validate_state_topic [("topic", Value.vstr "ab")] "ab" rfl).2.2.1
      (by decide) (by decide)⟩

/-- C7: a conditional agent whose predicate is false on the input state
has its status set directly to `completed`, runs no domain logic (the
result does not depend on `execute`), leaves the invocation counter
unchanged, appends nothing to `error_log`, writes no execution-time
entry, and its update touches no key other than `agent_status`. -/
theorem conditional_skip_frame (should : AgentState → Bool) (name : String)
    (count : Nat) (tm : KernelTiming) (now : Nat)
    (execute : AgentState → Except String AgentState) (state : AgentState)
    (h : should state = false) :
    (∃ m, dget (ConditionalAgent.call should name count tm now execute state).1
        "agent_status" = some (Value.vstatusMap m) ∧
        dget m name = some AgentStatus.completed) ∧
    (ConditionalAgent.call should name count tm now execute state).2 = count ∧
    dget (ConditionalAgent.call should name count tm now execute state).1
      "error_log" = none ∧
    dget (ConditionalAgent.call should name count tm now execute state).1
      "execution_time" = none ∧
    (∀ k, k ≠ "agent_status" →
      dget (ConditionalAgent.call should name count tm now execute state).1 k
        = none) ∧
    (∀ execute2 : AgentState → Except String AgentState,
      ConditionalAgent.call should name count tm now execute2 state
        = ConditionalAgent.call should name count tm now execute state) := by
  have hskip : ∀ ex : AgentState → Except String AgentState,
      ConditionalAgent.call should name count tm now ex state =
        ([("agent_status", Value.vstatusMap
            (dinsert (getStatusMap state) name AgentStatus.completed))], count) := by
    intro ex
    unfold ConditionalAgent.call
    rw [h]
    simp
  refine ⟨?_, ?_, ?_, ?_, ?_, ?_⟩
  · rw [hskip]
    exact ⟨dinsert (getStatusMap state) name AgentStatus.completed,
      by simp [dget], dget_dinsert_self _ _ _⟩
  · rw [hskip]
  · rw [hskip]
    simp [dget]
  · rw [hskip]
    simp [dget]
  · intro k hk
    rw [hskip]
    simp [dget, hk.symm]
  · intro execute2
    rw [hskip, hskip]

/-- Concrete run of C7: a gate whose predicate is constantly false. -/
theorem conditional_skip_frame_witness :
    (ConditionalAgent.call (fun _ => false) "Editor" 4 ⟨0, 0⟩ 5
      (fun _ => Except.ok []) []).2 = 4 ∧
    dget (ConditionalAgent.call (fun _ => false) "Editor" 4 ⟨0, 0⟩ 5
      (fun _ => Except.ok []) []).1 "error_log" = none :=
  ⟨(conditional_skip_frame (fun _ => false) "Editor" 4 ⟨0, 0⟩ 5
      (fun _ => Except.ok []) [] rfl).2.1,
   (conditional_skip_frame (fun _ => false) "Editor" 4 ⟨0, 0⟩ 5
      (fun _ => Except.ok []) [] rfl).2.2.1⟩

/-- C8 counterexample: with a pre-execute kernel overhead of 1 second and
a domain-logic call of 0 seconds, the recorded execution-time entry is 1,
not the domain-logic duration 0 — the measurement interval starts at
`start_time = time.time()` (base.py line 61), **before** the logging and
the status write, not immediately before the `execute` call. -/
theorem timing_overhead_counterexample :
    dget (BaseAgent.call "A" 0 ⟨1, 0⟩ 5
        (fun _ => Except.ok []) []).1 "execution_time"
      = some (Value.vtimeMap [("A", 1)]) ∧
    (1 : Rat) ≠ 0 := by
  constructor
  · rw [call_ok "A" 0 ⟨1, 0⟩ 5 _ [] [] rfl]
    rw [dget_dinsert_ne _ (by decide), dget_dinsert_self]
    simp [getTimeMap, dget, dinsert]
  · norm_num

/-- C8 amended: the recorded per-agent duration spans from the kernel's
`start_time` capture at entry — before the pre-execute logging and the
in-place status write — to immediately after the domain-logic call
returns or raises; it therefore equals the pre-execute kernel overhead
plus the domain-logic duration on both the success and the failure path
(post-execute merge overhead is excluded). -/
theorem timing_span_amended (name : String) (count : Nat)
    (tm : KernelTiming) (now : Nat)
    (execOk execBad : AgentState → Except String AgentState)
    (state result : AgentState) (msg : String)
    (hok : execOk (BaseAgent.update_status name state) = Except.ok result)
    (hbad : execBad (BaseAgent.update_status name state) = Except.error msg) :
    (∃ em, dget (BaseAgent.call name count tm now execOk state).1
        "execution_time" = some (Value.vtimeMap em) ∧
        dget em name = some (tm.dPre + tm.dExec)) ∧
    (∃ em, dget (BaseAgent.call name count tm now execBad state).1
        "execution_time" = some (Value.vtimeMap em) ∧
        dget em name = some (tm.dPre + tm.dExec)) := by
  constructor
  · rw [call_ok name count tm now execOk state result hok]
    refine ⟨dinsert (getTimeMap state) name (tm.dPre + tm.dExec), ?_,
      dget_dinsert_self _ _ _⟩
    rw [dget_dinsert_ne _ (by decide), dget_dinsert_self]
  · rw [call_error name count tm now execBad state msg hbad]
    exact ⟨dinsert (getTimeMap state) name (tm.dPre + tm.dExec),
      by simp [dget], dget_dinsert_self _ _ _⟩

/-- Concrete run of C8 amended. -/
theorem timing_span_amended_witness :
    ∃ em, dget (BaseAgent.call "A" 0 ⟨2, 3⟩ 5
        (fun _ => Except.ok []) []).1 "execution_time"
      = some (Value.vtimeMap em) ∧ dget em "A" = some ((2 : Rat) + 3) :=
  (timing_span_amended "A" 0 ⟨2, 3⟩ 5
    (fun _ => Except.ok []) (fun _ => Except.error "boom") [] [] "boom"
    rfl rfl).1

/-- C9: for every search provider, any transport, timeout or parsing
failure raised during the underlying call is caught inside the provider's
`search`, which then returns the empty result sequence — no exception
propagates past the provider boundary. -/
theorem provider_error_empty (e query : String) (maxResults : Nat)
    (t1 : String → Nat → Except String (List DDGRaw))
    (t2 : String → Nat → Except String SerperData)
    (t3 : String → Nat → Except String TavilyData)
    (h1 : t1 query maxResults = Except.error e)
    (h2 : t2 query maxResults = Except.error e)
    (h3 : t3 query maxResults = Except.error e) :
    DuckDuckGoSearch.search t1 query maxResults = [] ∧
    SerperSearch.search t2 query maxResults = [] ∧
    TavilySearch.search t3 query maxResults = [] := by
  refine ⟨?_, ?_, ?_⟩
  · unfold DuckDuckGoSearch.search
    rw [h1]
  · unfold SerperSearch.search
    rw [h2]
  · unfold TavilySearch.search
    rw [h3]

/-- Concrete run of C9: a transport that always times out. -/
theorem provider_error_empty_witness :
    DuckDuckGoSearch.search (fun _ _ => Except.error "timeout") "rust" 5 = [] ∧
    SerperSearch.search (fun _ _ => Except.error "timeout") "rust" 5 = [] ∧
    TavilySearch.search (fun _ _ => Except.error "timeout") "rust" 5 = [] :=
  provider_error_empty "timeout" "rust" 5
    (fun _ _ => Except.error "timeout") (fun _ _ => Except.error "timeout")
    (fun _ _ => Except.error "timeout") rfl rfl rfl

/-- C10: `SearchTool.search` applies the per-call `max_results` override
only when it is truthy: with `max_results=0` or `None` it delegates with
the constructor-configured default limit, so the call is not performed
with a zero-result limit; a non-zero override is passed through. -/
theorem searchtool_zero_override (selfMax : Nat)
    (provider : String → Nat → List SearchResult) (query : String) :
    SearchTool.search selfMax provider query (some 0) = provider query selfMax ∧
    SearchTool.search selfMax provider query none = provider query selfMax ∧
    ∀ n : Nat, n ≠ 0 →
      SearchTool.search selfMax provider query (some n) = provider query n := by
  refine ⟨rfl, rfl, ?_⟩
  intro n hn
  simp [SearchTool.search, pyOrNat, hn]

/-- Concrete run of C10: with a default limit of 5, an override of 0 is
delegated as 5, an override of 3 as 3. -/
theorem searchtool_zero_override_witness :
    SearchTool.search 5
        (fun _ n => List.replicate n ⟨"t", "l", "s"⟩) "q" (some 0)
      = List.replicate 5 (⟨"t", "l", "s"⟩ : SearchResult) ∧
    SearchTool.search 5
        (fun _ n => List.replicate n ⟨"t", "l", "s"⟩) "q" (some 3)
      = List.replicate 3 (⟨"t", "l", "s"⟩ : SearchResult) :=
  ⟨(searchtool_zero_override 5
      (fun _ n => List.replicate n ⟨"t", "l", "s"⟩) "q").1,
   (searchtool_zero_override 5
      (fun _ n => List.replicate n ⟨"t", "l", "s"⟩) "q").2.2 3 (by decide)⟩
